import Mathlib

/-!
Shallow embedding of the stock_photo Django application (src/myapp/models.py,
src/myapp/views.py, src/myapp/admin.py) for verifying the download-entitlement
and subscription logic.  Dates are modelled as natural numbers (days); the
relational store is modelled as lists of rows; Python exceptions are modelled
with `Except`.
-/

deriving instance DecidableEq for Except

namespace StockPhoto

/-- Python exceptions that the modelled code can raise.
`relatedObjectDoesNotExist` is Django's error for a missing reverse
one-to-one row; it subclasses both AttributeError and the model's
DoesNotExist, so `hasattr` treats it as an AttributeError while an
`except Model.DoesNotExist` clause catches it. -/
inductive PyError where
  | attributeError (msg : String) : PyError
  | valueError (msg : String) : PyError
  | relatedObjectDoesNotExist (msg : String) : PyError
deriving DecidableEq

/-- models.py, SubscriptionPlan: name, price (irrelevant to the claims,
omitted), optional stripe_price_id, daily_limit.  An `id` primary key is
added by the ORM. -/
structure SubscriptionPlan where
  id : Nat
  name : String
  stripe_price_id : Option String
  daily_limit : Nat
deriving DecidableEq

/-- models.py, Product: name, a non-nullable plan foreign key
(on_delete=CASCADE), and an optional file (FileField with null=True);
the file is modelled by its stored name. -/
structure Product where
  id : Nat
  name : String
  subscription_plan : SubscriptionPlan
  file : Option String
deriving DecidableEq

/-- models.py, UserSubscription: one row per user (OneToOneField to User,
related_name "usersubscription"), a nullable plan foreign key
(on_delete=SET_NULL), optional stripe_subscription_id, start and end dates. -/
structure UserSubscription where
  userId : Nat
  plan : Option SubscriptionPlan
  stripe_subscription_id : Option String
  start_date : Nat
  end_date : Nat
deriving DecidableEq

/-- models.py, UserDownloadLog: a nullable user foreign key (SET_NULL),
a product foreign key, and a date set on creation (auto_now_add). -/
structure UserDownloadLog where
  userId : Option Nat
  productId : Nat
  date : Nat
deriving DecidableEq

/-- The relational store: the UserSubscription table and the
UserDownloadLog table. -/
structure St where
  subscriptions : List UserSubscription
  logs : List UserDownloadLog
deriving DecidableEq

/-- models.py line 53-55: `active()` returns
`self.start_date <= today <= self.end_date`. -/
def UserSubscription.active (s : UserSubscription) (today : Nat) : Bool :=
  decide (s.start_date ≤ today) && decide (today ≤ s.end_date)

/-- The ORM query `UserDownloadLog.objects.filter(user=u, date=today).count()`
shared by models.py line 59 and views.py line 290. -/
def countDownloadsToday (logs : List UserDownloadLog) (uid : Nat) (today : Nat) : Nat :=
  (logs.filter fun l => l.userId == some uid && l.date == today).length

/-- models.py line 57-59: `downloads_today()` counts this user's
UserDownloadLog rows dated today. -/
def UserSubscription.downloads_today (s : UserSubscription) (logs : List UserDownloadLog)
    (today : Nat) : Nat :=
  (logs.filter fun l => l.userId == some s.userId && l.date == today).length

/-- Django's reverse one-to-one accessor `user.usersubscription`: the unique
UserSubscription row whose user is this user, if any. -/
def findSubscription (st : St) (uid : Nat) : Option UserSubscription :=
  st.subscriptions.find? fun s => s.userId == uid

/-- views.py line 280: the fixed tier ordering. -/
def plan_order : List String := ["Free", "Basic", "Pro"]

/-- Python `list.index`: position of the first occurrence, or a ValueError
when the element is absent. -/
def listIndex : List String → String → Except PyError Nat
  | [], x => .error (.valueError (x ++ " is not in list"))
  | y :: ys, x => if y == x then .ok 0 else (listIndex ys x).map (· + 1)

/-- views.py line 285: the tier comparison
`plan_order.index(product_plan_name) > plan_order.index(user_plan_name)`;
Python evaluates the left operand (the product's index) first, and either
`index` call can raise ValueError. -/
def tierCheckDenies (user_plan_name product_plan_name : String) : Except PyError Bool :=
  match listIndex plan_order product_plan_name with
  | .error e => .error e
  | .ok productIdx =>
    match listIndex plan_order user_plan_name with
    | .error e => .error e
    | .ok userIdx => .ok (decide (productIdx > userIdx))

/-- The outcome of the download view: a FileResponse with the attachment
name, or `messages.error(...)` followed by `redirect('home')`. -/
inductive DlResult where
  | fileResponse (filename : String) : DlResult
  | deniedRedirect (msg : String) : DlResult
deriving DecidableEq

/-- `os.path.basename` for the stored file name (views.py line 305):
everything after the last path separator. -/
def basename (s : String) : String := String.mk ((s.data.splitOn '/').getLastD s.data)

/-- views.py lines 263-305, `download_product_api`, for a logged-in user
`uid` and an existing product, with the current date `today`.  Returns the
HTTP outcome (or an uncaught Python exception) together with the resulting
store.  Source order: missing-subscription check (hasattr), `active()`,
`subscription.plan.name` (AttributeError when plan is NULL),
the `list.index` tier comparison, the daily-limit count, the file-presence
check, and finally the log insert (date auto_now_add = today) and the
FileResponse. -/
def download_product_api (st : St) (uid : Nat) (product : Product) (today : Nat) :
    Except PyError DlResult × St :=
  match findSubscription st uid with
  | none => (.ok (.deniedRedirect "No subscription found."), st)
  | some subscription =>
    if !subscription.active today then
      (.ok (.deniedRedirect "Subscription expired."), st)
    else
      match subscription.plan with
      | none => (.error (.attributeError "NoneType object has no attribute name"), st)
      | some plan =>
        match tierCheckDenies plan.name product.subscription_plan.name with
        | .error e => (.error e, st)
        | .ok true =>
          (.ok (.deniedRedirect "This product is not included in your subscription."), st)
        | .ok false =>
          let downloads_today := countDownloadsToday st.logs uid today
          if downloads_today ≥ plan.daily_limit then
            (.ok (.deniedRedirect "Daily download limit reached."), st)
          else
            match product.file with
            | none => (.ok (.deniedRedirect "File not found."), st)
            | some fname =>
              (.ok (.fileResponse (basename fname)),
               { st with logs := st.logs ++ [⟨some uid, product.id, today⟩] })

/-- The download is permitted: the view returns the file rather than
redirecting with an error or raising. -/
def Permits (st : St) (uid : Nat) (product : Product) (today : Nat) : Prop :=
  ∃ fname st', download_product_api st uid product today = (.ok (.fileResponse fname), st')

/-- models.py line 47: the only reverse accessor that UserSubscription
installs on User is its related_name, "usersubscription". -/
def userRelatedAccessorNames : List String := ["usersubscription"]

/-- The plan foreign-key column as Django exposes it through the attribute
`plan_id` (NULL when the plan was set to NULL). -/
def UserSubscription.plan_id (s : UserSubscription) : Option Nat :=
  s.plan.map (fun p => p.id)

/-- Python attribute access `getattr(user, attr)` for subscription-valued
attributes of a Django User: the accessor named in models.py returns the
row or raises RelatedObjectDoesNotExist; any other name raises a plain
AttributeError. -/
def userGetattrSubscription (st : St) (uid : Nat) (attr : String) :
    Except PyError UserSubscription :=
  if userRelatedAccessorNames.contains attr then
    match findSubscription st uid with
    | some s => .ok s
    | none => .error (.relatedObjectDoesNotExist attr)
  else
    .error (.attributeError attr)

/-- views.py lines 34-49, `can_subscribe`: first evaluates
`user.subscription.plan_id != plan_id` (outside any try), then re-reads
`user.subscription` inside a try catching UserSubscription.DoesNotExist,
then tests the subscription window. -/
def can_subscribe (st : St) (uid : Nat) (plan_id : Nat) (today : Nat) :
    Except PyError Bool :=
  match userGetattrSubscription st uid "subscription" with
  | .error e => .error e
  | .ok s0 =>
    if s0.plan_id ≠ some plan_id then
      .ok true
    else
      match userGetattrSubscription st uid "subscription" with
      | .error (.relatedObjectDoesNotExist _) => .ok true
      | .error e => .error e
      | .ok subscription =>
        if subscription.start_date ≤ today ∧ today ≤ subscription.end_date then
          .ok false
        else
          .ok true

/-- Outcome of `create_checkout_session`: an HttpResponse with a status, or
a redirect. -/
inductive CheckoutResult where
  | httpResponse (body : String) (status : Nat) : CheckoutResult
  | redirectTo (url : String) : CheckoutResult
deriving DecidableEq

/-- views.py lines 52-81, `create_checkout_session`: the eligibility check
via `can_subscribe`, then `get_object_or_404(SubscriptionPlan, id=plan_id)`,
then redirect to the subscription page when the plan has no Stripe price id,
otherwise redirect to the Stripe-hosted session URL (supplied here as a
parameter, since Stripe is external). -/
def create_checkout_session (st : St) (plans : List SubscriptionPlan)
    (uid : Nat) (plan_id : Nat) (today : Nat) (sessionUrl : String) :
    Except PyError CheckoutResult :=
  match can_subscribe st uid plan_id today with
  | .error e => .error e
  | .ok false => .ok (.httpResponse "You already have an active subscription this month." 400)
  | .ok true =>
    match plans.find? (fun p => p.id == plan_id) with
    | none => .ok (.httpResponse "Not Found" 404)
    | some plan =>
      match plan.stripe_price_id with
      | none => .ok (.redirectTo "subscription_page")
      | some _ => .ok (.redirectTo sessionUrl)

/-- Django's `UserSubscription.objects.update_or_create(user=user,
defaults=...)`: update the existing row for this user by
`apply_defaults` (the user key itself is untouched), or insert `fresh`
when no row for this user exists. -/
def update_or_create_by_user (st : St) (uid : Nat)
    (apply_defaults : UserSubscription → UserSubscription)
    (fresh : UserSubscription) : St :=
  if st.subscriptions.any (fun s => s.userId == uid) then
    { st with subscriptions :=
        st.subscriptions.map fun s => if s.userId == uid then apply_defaults s else s }
  else
    { st with subscriptions := st.subscriptions ++ [fresh] }

/-- views.py lines 121-132 (`subscription_success`): update_or_create keyed
on the user with defaults plan, stripe_subscription_id, start_date = today,
end_date = today + 30 days. -/
def subscription_success_upsert (st : St) (uid : Nat) (plan : SubscriptionPlan)
    (stripe_sub_id : String) (today : Nat) : St :=
  update_or_create_by_user st uid
    (fun s => { s with plan := some plan, stripe_subscription_id := some stripe_sub_id,
                       start_date := today, end_date := today + 30 })
    { userId := uid, plan := some plan, stripe_subscription_id := some stripe_sub_id,
      start_date := today, end_date := today + 30 }

/-- views.py lines 318-332 (`subscription_view`, POST branch):
update_or_create keyed on the user with defaults plan, start_date = today,
end_date = today + 365 days (stripe_subscription_id not among the defaults). -/
def subscription_view_post (st : St) (uid : Nat) (plan : SubscriptionPlan)
    (today : Nat) : St :=
  update_or_create_by_user st uid
    (fun s => { s with plan := some plan, start_date := today, end_date := today + 365 })
    { userId := uid, plan := some plan, stripe_subscription_id := none,
      start_date := today, end_date := today + 365 }

/-- views.py lines 190-199 (`register_view`): after creating a brand-new
user, `UserSubscription.objects.create(user=user, plan=free_plan,
start_date=today, end_date=today + 365)` when the Free plan exists,
otherwise no subscription row. -/
def register_create_subscription (st : St) (uid : Nat)
    (free_plan : Option SubscriptionPlan) (today : Nat) : St :=
  match free_plan with
  | none => st
  | some plan =>
    { st with subscriptions := st.subscriptions ++
        [{ userId := uid, plan := some plan, stripe_subscription_id := none,
           start_date := today, end_date := today + 365 }] }

/-- admin.py line 83-84: UserDownloadLogAdmin.has_add_permission returns False. -/
def UserDownloadLogAdmin.has_add_permission : Bool := false

/-- admin.py line 86-87: UserDownloadLogAdmin.has_change_permission returns False. -/
def UserDownloadLogAdmin.has_change_permission : Bool := false

/-- admin.py line 89-90: UserDownloadLogAdmin.has_delete_permission returns False. -/
def UserDownloadLogAdmin.has_delete_permission : Bool := false

/-- The one-subscription-per-user invariant: no two UserSubscription rows
share a user. -/
@[reducible] def uniqueUserSubs (subs : List UserSubscription) : Prop :=
  subs.Pairwise fun a b => a.userId ≠ b.userId

/-! Concrete sample data (mirroring dataload.py: the Free plan has daily
limit 3) used to instantiate the theorems. -/

def planFree : SubscriptionPlan := ⟨1, "Free", none, 3⟩

def planPro : SubscriptionPlan := ⟨3, "Pro", some "price_pro", 100⟩

def planGold : SubscriptionPlan := ⟨4, "Gold", none, 5⟩

def subActiveFree : UserSubscription := ⟨1, some planFree, none, 0, 365⟩

def subNoPlanInactive : UserSubscription := ⟨2, none, none, 0, 10⟩

def subNoPlanActive : UserSubscription := ⟨3, none, none, 0, 365⟩

def prodFreeNoFile : Product := ⟨1, "Free Product NoFile", planFree, none⟩

def prodFreeFile : Product := ⟨2, "Free Product 1", planFree, some "product_files/free1.pdf"⟩

def prodGold : Product := ⟨3, "Gold Product", planGold, none⟩

def prodProFile : Product := ⟨4, "Pro Product 1", planPro, some "product_files/pro1.pdf"⟩

def stOne : St := ⟨[subActiveFree], []⟩

def stFull : St := ⟨[subActiveFree], [⟨some 1, 2, 100⟩, ⟨some 1, 2, 100⟩, ⟨some 1, 2, 100⟩]⟩

def stTwo : St := ⟨[subNoPlanInactive], []⟩

def stThree : St := ⟨[subNoPlanActive], []⟩

/-! Case lemmas for `download_product_api`, one per control-flow exit of the
view, shared by the claim theorems below. -/

theorem dpa_no_sub {st : St} {uid : Nat} {product : Product} {today : Nat}
    (h : findSubscription st uid = none) :
    download_product_api st uid product today =
      (.ok (.deniedRedirect "No subscription found."), st) := by
  simp [download_product_api, h]

theorem dpa_inactive {st : St} {uid : Nat} {product : Product} {today : Nat}
    {sub : UserSubscription} (h : findSubscription st uid = some sub)
    (ha : sub.active today = false) :
    download_product_api st uid product today =
      (.ok (.deniedRedirect "Subscription expired."), st) := by
  simp [download_product_api, h, ha]

theorem dpa_no_plan {st : St} {uid : Nat} {product : Product} {today : Nat}
    {sub : UserSubscription} (h : findSubscription st uid = some sub)
    (ha : sub.active today = true) (hp : sub.plan = none) :
    download_product_api st uid product today =
      (.error (.attributeError "NoneType object has no attribute name"), st) := by
  simp [download_product_api, h, ha, hp]

theorem dpa_tier_error {st : St} {uid : Nat} {product : Product} {today : Nat}
    {sub : UserSubscription} {plan : SubscriptionPlan} {e : PyError}
    (h : findSubscription st uid = some sub)
    (ha : sub.active today = true) (hp : sub.plan = some plan)
    (ht : tierCheckDenies plan.name product.subscription_plan.name = .error e) :
    download_product_api st uid product today = (.error e, st) := by
  simp [download_product_api, h, ha, hp, ht]

theorem dpa_tier_denied {st : St} {uid : Nat} {product : Product} {today : Nat}
    {sub : UserSubscription} {plan : SubscriptionPlan}
    (h : findSubscription st uid = some sub)
    (ha : sub.active today = true) (hp : sub.plan = some plan)
    (ht : tierCheckDenies plan.name product.subscription_plan.name = .ok true) :
    download_product_api st uid product today =
      (.ok (.deniedRedirect "This product is not included in your subscription."), st) := by
  simp [download_product_api, h, ha, hp, ht]

theorem dpa_limit_reached {st : St} {uid : Nat} {product : Product} {today : Nat}
    {sub : UserSubscription} {plan : SubscriptionPlan}
    (h : findSubscription st uid = some sub)
    (ha : sub.active today = true) (hp : sub.plan = some plan)
    (ht : tierCheckDenies plan.name product.subscription_plan.name = .ok false)
    (hl : plan.daily_limit ≤ countDownloadsToday st.logs uid today) :
    download_product_api st uid product today =
      (.ok (.deniedRedirect "Daily download limit reached."), st) := by
  simp [download_product_api, h, ha, hp, ht, hl]

theorem dpa_no_file {st : St} {uid : Nat} {product : Product} {today : Nat}
    {sub : UserSubscription} {plan : SubscriptionPlan}
    (h : findSubscription st uid = some sub)
    (ha : sub.active today = true) (hp : sub.plan = some plan)
    (ht : tierCheckDenies plan.name product.subscription_plan.name = .ok false)
    (hl : countDownloadsToday st.logs uid today < plan.daily_limit)
    (hf : product.file = none) :
    download_product_api st uid product today =
      (.ok (.deniedRedirect "File not found."), st) := by
  simp [download_product_api, h, ha, hp, ht, hf, Nat.not_le.mpr hl]

theorem dpa_serves {st : St} {uid : Nat} {product : Product} {today : Nat}
    {sub : UserSubscription} {plan : SubscriptionPlan} {fname : String}
    (h : findSubscription st uid = some sub)
    (ha : sub.active today = true) (hp : sub.plan = some plan)
    (ht : tierCheckDenies plan.name product.subscription_plan.name = .ok false)
    (hl : countDownloadsToday st.logs uid today < plan.daily_limit)
    (hf : product.file = some fname) :
    download_product_api st uid product today =
      (.ok (.fileResponse (basename fname)),
       { st with logs := st.logs ++ [⟨some uid, product.id, today⟩] }) := by
  simp [download_product_api, h, ha, hp, ht, hf, Nat.not_le.mpr hl]

/-! Helper lemmas about `listIndex`, `tierCheckDenies`, the download view's
possible outcomes, the daily count, and uniqueness preservation. -/

theorem listIndex_of_mem {xs : List String} {x : String} (h : x ∈ xs) :
    ∃ n, listIndex xs x = .ok n := by
  induction xs with
  | nil => simp at h
  | cons y ys ih =>
    by_cases hyx : (y == x) = true
    · exact ⟨0, by simp [listIndex, hyx]⟩
    · have hx : x ∈ ys := by
        rcases List.mem_cons.mp h with h1 | h1
        · exact absurd (by simp [h1]) hyx
        · exact h1
      obtain ⟨n, hn⟩ := ih hx
      exact ⟨n + 1, by simp [listIndex, hyx, hn, Except.map]⟩

theorem listIndex_of_not_mem {xs : List String} {x : String} (h : ¬ x ∈ xs) :
    listIndex xs x = .error (.valueError (x ++ " is not in list")) := by
  induction xs with
  | nil => rfl
  | cons y ys ih =>
    simp only [List.mem_cons, not_or] at h
    obtain ⟨h1, h2⟩ := h
    have hyx : (y == x) = false := by
      simp only [beq_eq_false_iff_ne]
      exact fun hcontra => h1 hcontra.symm
    simp [listIndex, hyx, ih h2, Except.map]

theorem tierCheckDenies_ok_false_iff (u p : String) :
    tierCheckDenies u p = .ok false ↔
      ∃ pi ui, listIndex plan_order p = .ok pi ∧ listIndex plan_order u = .ok ui ∧
        pi ≤ ui := by
  unfold tierCheckDenies
  cases hp : listIndex plan_order p with
  | error e => simp [hp]
  | ok pi =>
    cases hu : listIndex plan_order u with
    | error e => simp [hp, hu]
    | ok ui => simp [hp, hu, Nat.not_lt]

theorem tierCheckDenies_error_of_not_mem (u p : String)
    (h : ¬ u ∈ plan_order ∨ ¬ p ∈ plan_order) :
    ∃ m, tierCheckDenies u p = .error (.valueError m) := by
  rcases h with hu | hp
  · by_cases hpm : p ∈ plan_order
    · obtain ⟨n, hn⟩ := listIndex_of_mem hpm
      exact ⟨u ++ " is not in list",
        by simp [tierCheckDenies, hn, listIndex_of_not_mem hu]⟩
    · exact ⟨p ++ " is not in list",
        by simp [tierCheckDenies, listIndex_of_not_mem hpm]⟩
  · exact ⟨p ++ " is not in list",
      by simp [tierCheckDenies, listIndex_of_not_mem hp]⟩

theorem countDownloadsToday_append_own (logs : List UserDownloadLog)
    (uid pid today : Nat) :
    countDownloadsToday (logs ++ [⟨some uid, pid, today⟩]) uid today =
      countDownloadsToday logs uid today + 1 := by
  simp [countDownloadsToday, List.filter_append]

theorem dpa_cases (st : St) (uid : Nat) (product : Product) (today : Nat) :
    ((download_product_api st uid product today).2 = st ∧
      ∀ fname, (download_product_api st uid product today).1 ≠ .ok (.fileResponse fname)) ∨
    ∃ fname, download_product_api st uid product today =
      (.ok (.fileResponse (basename fname)),
       { st with logs := st.logs ++ [⟨some uid, product.id, today⟩] }) := by
  cases hfind : findSubscription st uid with
  | none => left; rw [dpa_no_sub hfind]; exact ⟨rfl, fun fname => by simp⟩
  | some sub =>
    cases hact : sub.active today with
    | false => left; rw [dpa_inactive hfind hact]; exact ⟨rfl, fun fname => by simp⟩
    | true =>
      cases hplan : sub.plan with
      | none => left; rw [dpa_no_plan hfind hact hplan]; exact ⟨rfl, fun fname => by simp⟩
      | some plan =>
        cases htier : tierCheckDenies plan.name product.subscription_plan.name with
        | error e =>
          left; rw [dpa_tier_error hfind hact hplan htier]
          exact ⟨rfl, fun fname => by simp⟩
        | ok b =>
          cases b with
          | true =>
            left; rw [dpa_tier_denied hfind hact hplan htier]
            exact ⟨rfl, fun fname => by simp⟩
          | false =>
            rcases Nat.lt_or_ge (countDownloadsToday st.logs uid today)
                plan.daily_limit with hl | hl
            · cases hfile : product.file with
              | none =>
                left; rw [dpa_no_file hfind hact hplan htier hl hfile]
                exact ⟨rfl, fun fname => by simp⟩
              | some f =>
                right; exact ⟨f, dpa_serves hfind hact hplan htier hl hfile⟩
            · left; rw [dpa_limit_reached hfind hact hplan htier hl]
              exact ⟨rfl, fun fname => by simp⟩

theorem uniqueUserSubs_update_or_create (st : St) (uid : Nat)
    (f : UserSubscription → UserSubscription) (fresh : UserSubscription)
    (hf : ∀ s, (f s).userId = s.userId) (hfresh : fresh.userId = uid)
    (hinv : uniqueUserSubs st.subscriptions) :
    uniqueUserSubs (update_or_create_by_user st uid f fresh).subscriptions := by
  unfold update_or_create_by_user uniqueUserSubs
  split
  · rename_i hany
    show List.Pairwise _ (st.subscriptions.map _)
    rw [List.pairwise_map]
    refine hinv.imp ?_
    intro a b hab
    have key : ∀ s : UserSubscription,
        (if (s.userId == uid) = true then f s else s).userId = s.userId := by
      intro s; split
      · exact hf s
      · rfl
    rw [key a, key b]
    exact hab
  · rename_i hany
    show List.Pairwise _ (st.subscriptions ++ [fresh])
    rw [List.pairwise_append]
    refine ⟨hinv, by simp, ?_⟩
    intro a ha b hb
    simp only [List.mem_singleton] at hb
    subst hb
    rw [hfresh]
    intro heq
    exact hany (List.any_eq_true.mpr ⟨a, ha, by simp [heq]⟩)

/-! Claim theorems. -/

/-- Claim C2: for every UserSubscription and current date, `active()`
returns true if and only if start_date ≤ today ≤ end_date, both endpoints
inclusive. -/
theorem active_iff_within_window (s : UserSubscription) (today : Nat) :
    s.active today = true ↔ (s.start_date ≤ today ∧ today ≤ s.end_date) := by
  simp [UserSubscription.active]

/-- Claim C3: the tier-entitlement decision compares plans by their index in
the fixed list ["Free", "Basic", "Pro"]: for every user plan name and product
plan name in that list, the product passes the tier check if and only if the
index of the product's plan name is at most the index of the user's plan
name. -/
theorem tier_check_is_index_comparison :
    ∀ u ∈ plan_order, ∀ p ∈ plan_order,
      ∃ pi ui, listIndex plan_order p = .ok pi ∧ listIndex plan_order u = .ok ui ∧
        (tierCheckDenies u p = .ok false ↔ pi ≤ ui) := by
  intro u hu p hp
  simp only [plan_order, List.mem_cons, List.not_mem_nil, or_false] at hu hp
  rcases hu with rfl | rfl | rfl <;> rcases hp with rfl | rfl | rfl <;>
    exact ⟨_, _, rfl, rfl, by decide⟩

/-- Claim C3, witness: a Pro subscriber passes the tier check for a
Free-tier product, and the comparison is index 0 ≤ index 2. -/
theorem tier_check_is_index_comparison_witness :
    ∃ pi ui, listIndex plan_order "Free" = .ok pi ∧ listIndex plan_order "Pro" = .ok ui ∧
      (tierCheckDenies "Pro" "Free" = .ok false ↔ pi ≤ ui) :=
  tier_check_is_index_comparison "Pro" (by decide) "Free" (by decide)

/-- Claim C4: the "downloads today" quantity used by the quota check counts
exactly the UserDownloadLog rows of this user dated today —
`UserSubscription.downloads_today` computes that count, and a new row for
this user dated today raises the count by one whatever product it records
(so repeated downloads of the same product each count). -/
theorem downloads_today_counts_rows (s : UserSubscription)
    (logs : List UserDownloadLog) (today : Nat) :
    s.downloads_today logs today = countDownloadsToday logs s.userId today ∧
    s.downloads_today logs today =
      (logs.filter fun l => l.userId == some s.userId && l.date == today).length ∧
    ∀ pid : Nat,
      countDownloadsToday (⟨some s.userId, pid, today⟩ :: logs) s.userId today =
        countDownloadsToday logs s.userId today + 1 := by
  refine ⟨rfl, rfl, fun pid => ?_⟩
  simp [countDownloadsToday]

/-- Claim C9: `can_subscribe` reads `user.subscription`, but the reverse
accessor installed by UserSubscription is named `usersubscription`, so the
first line raises AttributeError for every user — with or without a
subscription row — and `create_checkout_session` propagates that exception
instead of completing its eligibility check. -/
theorem can_subscribe_always_raises (st : St) (uid plan_id today : Nat)
    (plans : List SubscriptionPlan) (sessionUrl : String) :
    can_subscribe st uid plan_id today = .error (.attributeError "subscription") ∧
    create_checkout_session st plans uid plan_id today sessionUrl =
      .error (.attributeError "subscription") := by
  have h : userGetattrSubscription st uid "subscription" =
      .error (.attributeError "subscription") := by
    simp [userGetattrSubscription, userRelatedAccessorNames]
  have h1 : can_subscribe st uid plan_id today =
      .error (.attributeError "subscription") := by
    simp [can_subscribe, h]
  exact ⟨h1, by simp [create_checkout_session, h1]⟩

/-- Claim C1 (amended): the download view returns the file if and only if
the user has a subscription that is active today, the product's plan index
is at most the subscription's plan index in the fixed ordering, today's
download-log count is strictly below the plan's daily limit, AND the product
has a file attached; the original claim omitted the file-presence
conjunct. -/
theorem download_permitted_iff (st : St) (uid : Nat) (product : Product)
    (today : Nat) :
    Permits st uid product today ↔
      ∃ sub, findSubscription st uid = some sub ∧ sub.active today = true ∧
        ∃ plan, sub.plan = some plan ∧
          (∃ pi ui, listIndex plan_order product.subscription_plan.name = .ok pi ∧
                    listIndex plan_order plan.name = .ok ui ∧ pi ≤ ui) ∧
          countDownloadsToday st.logs uid today < plan.daily_limit ∧
          product.file ≠ none := by
  constructor
  · rintro ⟨fname, st', hdl⟩
    cases hfind : findSubscription st uid with
    | none => rw [dpa_no_sub hfind] at hdl; simp at hdl
    | some sub =>
      cases hact : sub.active today with
      | false => rw [dpa_inactive hfind hact] at hdl; simp at hdl
      | true =>
        cases hplan : sub.plan with
        | none => rw [dpa_no_plan hfind hact hplan] at hdl; simp at hdl
        | some plan =>
          cases htier : tierCheckDenies plan.name product.subscription_plan.name with
          | error e => rw [dpa_tier_error hfind hact hplan htier] at hdl; simp at hdl
          | ok b =>
            cases b with
            | true => rw [dpa_tier_denied hfind hact hplan htier] at hdl; simp at hdl
            | false =>
              rcases Nat.lt_or_ge (countDownloadsToday st.logs uid today)
                  plan.daily_limit with hl | hl
              · cases hfile : product.file with
                | none =>
                  rw [dpa_no_file hfind hact hplan htier hl hfile] at hdl; simp at hdl
                | some f =>
                  refine ⟨sub, ?_, ?_, plan, ?_, ?_, ?_, ?_⟩ <;>
                    first
                      | rfl
                      | exact hfind
                      | exact hact
                      | exact hplan
                      | exact (tierCheckDenies_ok_false_iff _ _).mp htier
                      | exact hl
                      | simp [hfile]
              · rw [dpa_limit_reached hfind hact hplan htier hl] at hdl; simp at hdl
  · rintro ⟨sub, hfind, hact, plan, hplan, htier, hl, hfile⟩
    obtain ⟨f, hf⟩ := Option.ne_none_iff_exists'.mp hfile
    exact ⟨basename f, _, dpa_serves hfind hact hplan
      ((tierCheckDenies_ok_false_iff _ _).mpr htier) hl hf⟩

/-- Claim C1, counterexample to the claim as stated: user 1 has an active
Free subscription, the product is Free-tier (index 0 ≤ index 0), and
today's count 0 is below the limit 3 — yet the view redirects with
"File not found." because the product has no file, so the stated
biconditional fails. -/
theorem download_permitted_iff_counterexample :
    findSubscription stOne 1 = some subActiveFree ∧
    subActiveFree.active 100 = true ∧
    subActiveFree.plan = some planFree ∧
    listIndex plan_order prodFreeNoFile.subscription_plan.name = .ok 0 ∧
    listIndex plan_order planFree.name = .ok 0 ∧
    countDownloadsToday stOne.logs 1 100 < planFree.daily_limit ∧
    download_product_api stOne 1 prodFreeNoFile 100 =
      (.ok (.deniedRedirect "File not found."), stOne) ∧
    ¬ Permits stOne 1 prodFreeNoFile 100 := by
  refine ⟨rfl, rfl, rfl, rfl, rfl, by decide, rfl, ?_⟩
  rintro ⟨fname, st', h⟩
  rw [show download_product_api stOne 1 prodFreeNoFile 100 =
        (.ok (.deniedRedirect "File not found."), stOne) from rfl] at h
  simp at h

/-- Claim C5: the entitlement check runs its three comparisons in source
order — subscription active, then the tier index comparison, then the
daily count against the limit — and the first failing comparison fixes the
denial message; the later comparisons are not evaluated (in particular an
inactive subscription is reported as expired even when the plan is missing
or a plan name would make `list.index` raise). -/
theorem download_checks_sequential (st : St) (uid : Nat) (product : Product)
    (today : Nat) (sub : UserSubscription)
    (h : findSubscription st uid = some sub) :
    (sub.active today = false →
      download_product_api st uid product today =
        (.ok (.deniedRedirect "Subscription expired."), st)) ∧
    (∀ plan, sub.active today = true → sub.plan = some plan →
      tierCheckDenies plan.name product.subscription_plan.name = .ok true →
      download_product_api st uid product today =
        (.ok (.deniedRedirect "This product is not included in your subscription."), st)) ∧
    (∀ plan, sub.active today = true → sub.plan = some plan →
      tierCheckDenies plan.name product.subscription_plan.name = .ok false →
      plan.daily_limit ≤ countDownloadsToday st.logs uid today →
      download_product_api st uid product today =
        (.ok (.deniedRedirect "Daily download limit reached."), st)) :=
  ⟨fun ha => dpa_inactive h ha,
   fun _plan ha hp ht => dpa_tier_denied h ha hp ht,
   fun _plan ha hp ht hl => dpa_limit_reached h ha hp ht hl⟩

/-- Claim C5, witness: three concrete denials, one per comparison.  User 2's
subscription is expired and has no plan while the product's plan name
"Gold" is outside the ordering, yet the view reports only the expiry —
the later comparisons were not evaluated; user 1 (active Free) is denied a
Pro product by the tier comparison; and with 3 logged downloads today the
Free limit of 3 denies the quota comparison. -/
theorem download_checks_sequential_witness :
    download_product_api stTwo 2 prodGold 100 =
      (.ok (.deniedRedirect "Subscription expired."), stTwo) ∧
    download_product_api stOne 1 prodProFile 100 =
      (.ok (.deniedRedirect "This product is not included in your subscription."), stOne) ∧
    download_product_api stFull 1 prodFreeFile 100 =
      (.ok (.deniedRedirect "Daily download limit reached."), stFull) :=
  ⟨(download_checks_sequential stTwo 2 prodGold 100 subNoPlanInactive rfl).1 rfl,
   (download_checks_sequential stOne 1 prodProFile 100 subActiveFree rfl).2.1
     planFree rfl rfl rfl,
   (download_checks_sequential stFull 1 prodFreeFile 100 subActiveFree rfl).2.2
     planFree rfl rfl rfl (by decide)⟩

/-- Claim C6: every user has at most one UserSubscription row, and each
subscription-writing operation preserves this: the Stripe success handler
and the manual subscription page upsert keyed on the user (updating in
place, never duplicating), and registration inserts one row for a
brand-new user that has no row yet. -/
theorem subscription_unique_per_user_preserved (st : St) (uid uid2 : Nat)
    (plan plan2 : SubscriptionPlan) (sid : String)
    (fplan : Option SubscriptionPlan) (today : Nat)
    (hinv : uniqueUserSubs st.subscriptions) :
    uniqueUserSubs (subscription_success_upsert st uid plan sid today).subscriptions ∧
    uniqueUserSubs (subscription_view_post st uid plan2 today).subscriptions ∧
    ((∀ s ∈ st.subscriptions, s.userId ≠ uid2) →
      uniqueUserSubs (register_create_subscription st uid2 fplan today).subscriptions) := by
  refine ⟨uniqueUserSubs_update_or_create st uid _ _ (fun s => rfl) rfl hinv,
    uniqueUserSubs_update_or_create st uid _ _ (fun s => rfl) rfl hinv, ?_⟩
  intro hfresh
  cases fplan with
  | none => exact hinv
  | some p =>
    show List.Pairwise _ (st.subscriptions ++ [_])
    rw [List.pairwise_append]
    refine ⟨hinv, by simp, ?_⟩
    intro a ha b hb
    simp only [List.mem_singleton] at hb
    subst hb
    exact hfresh a ha

/-- Claim C6, witness: starting from a store holding only user 1's
subscription, the Stripe upsert for user 1, the manual-page upsert for
user 1, and registration of the fresh user 2 each leave the table with
pairwise-distinct users. -/
theorem subscription_unique_per_user_preserved_witness :
    uniqueUserSubs (subscription_success_upsert stOne 1 planPro "sub_123" 100).subscriptions ∧
    uniqueUserSubs (subscription_view_post stOne 1 planPro 100).subscriptions ∧
    uniqueUserSubs (register_create_subscription stOne 2 (some planFree) 100).subscriptions := by
  obtain ⟨h1, h2, h3⟩ := subscription_unique_per_user_preserved stOne 1 2 planPro planPro
    "sub_123" (some planFree) 100 (by decide)
  exact ⟨h1, h2, h3 (by decide)⟩

/-- Claim C7: the UserDownloadLog store is append-only — the download view
never removes or edits existing rows (it at most appends one row for the
permitted download), the subscription-writing operations leave the log
untouched, and the admin interface forbids adding, changing and deleting
log entries. -/
theorem download_log_append_only (st : St) (uid : Nat) (product : Product)
    (today : Nat) (plan : SubscriptionPlan) (sid : String)
    (fplan : Option SubscriptionPlan) :
    (download_product_api st uid product today).2.subscriptions = st.subscriptions ∧
    ((download_product_api st uid product today).2.logs = st.logs ∨
      ∃ fname, (download_product_api st uid product today).1 = .ok (.fileResponse fname) ∧
        (download_product_api st uid product today).2.logs =
          st.logs ++ [⟨some uid, product.id, today⟩]) ∧
    (subscription_success_upsert st uid plan sid today).logs = st.logs ∧
    (subscription_view_post st uid plan today).logs = st.logs ∧
    (register_create_subscription st uid fplan today).logs = st.logs ∧
    UserDownloadLogAdmin.has_add_permission = false ∧
    UserDownloadLogAdmin.has_change_permission = false ∧
    UserDownloadLogAdmin.has_delete_permission = false := by
  have hupsert : ∀ (f : UserSubscription → UserSubscription) fresh,
      (update_or_create_by_user st uid f fresh).logs = st.logs := by
    intro f fresh
    unfold update_or_create_by_user
    split <;> rfl
  have hreg : (register_create_subscription st uid fplan today).logs = st.logs := by
    cases fplan <;> rfl
  rcases dpa_cases st uid product today with ⟨h2, _⟩ | ⟨fname, h⟩
  · exact ⟨by rw [h2], .inl (by rw [h2]), hupsert _ _, hupsert _ _, hreg, rfl, rfl, rfl⟩
  · exact ⟨by rw [h], .inr ⟨basename fname, by rw [h], by rw [h]⟩,
      hupsert _ _, hupsert _ _, hreg, rfl, rfl, rfl⟩

/-- Claim C8: the download view is atomic with respect to the log — when it
serves the file it appends exactly one row for this user dated today, so
the user's daily count rises by exactly one, and on every other outcome
(each denial and each raised exception) the stored state is returned
unchanged. -/
theorem download_atomic (st : St) (uid : Nat) (product : Product) (today : Nat) :
    ((∃ fname, (download_product_api st uid product today).1 = .ok (.fileResponse fname)) →
      (download_product_api st uid product today).2.logs =
        st.logs ++ [⟨some uid, product.id, today⟩] ∧
      countDownloadsToday (download_product_api st uid product today).2.logs uid today =
        countDownloadsToday st.logs uid today + 1) ∧
    ((∀ fname, (download_product_api st uid product today).1 ≠ .ok (.fileResponse fname)) →
      (download_product_api st uid product today).2 = st) := by
  rcases dpa_cases st uid product today with ⟨h2, hno⟩ | ⟨fname, h⟩
  · exact ⟨fun ⟨f, hf⟩ => absurd hf (hno f), fun _ => h2⟩
  · refine ⟨fun _ => ⟨by rw [h], ?_⟩, fun hno => absurd (by rw [h]) (hno (basename fname))⟩
    rw [h]
    exact countDownloadsToday_append_own st.logs uid product.id today

/-- Claim C8, witness: user 1 with an active Free subscription and an empty
log downloads a Free product with a file; exactly one row dated today is
appended and the daily count goes from 0 to 1. -/
theorem download_atomic_witness :
    (download_product_api stOne 1 prodFreeFile 100).2.logs =
      stOne.logs ++ [⟨some 1, 2, 100⟩] ∧
    countDownloadsToday (download_product_api stOne 1 prodFreeFile 100).2.logs 1 100 =
      countDownloadsToday stOne.logs 1 100 + 1 :=
  (download_atomic stOne 1 prodFreeFile 100).1 ⟨"free1.pdf", rfl⟩

/-- Claim C10, counterexample to the claim as stated: user 2's subscription
has no plan (plan is NULL) and the product's plan name "Gold" is outside
the fixed list, yet the view raises nothing — the subscription is expired,
so the view returns the "Subscription expired." denial before any plan
attribute or `list.index` call is reached. -/
theorem download_raises_on_bad_plan_counterexample :
    subNoPlanInactive.plan = none ∧
    findSubscription stTwo 2 = some subNoPlanInactive ∧
    ¬ prodGold.subscription_plan.name ∈ plan_order ∧
    download_product_api stTwo 2 prodGold 100 =
      (.ok (.deniedRedirect "Subscription expired."), stTwo) ∧
    ∀ e : PyError, (download_product_api stTwo 2 prodGold 100).1 ≠ .error e := by
  refine ⟨rfl, rfl, by decide, rfl, ?_⟩
  intro e h
  rw [show (download_product_api stTwo 2 prodGold 100).1 =
        .ok (.deniedRedirect "Subscription expired.") from rfl] at h
  simp at h

/-- Claim C10 (amended): when the subscription check passes — a subscription
exists and is active today — and either the plan foreign key is NULL or one
of the two plan names is outside ["Free", "Basic", "Pro"], the view raises
an exception (an AttributeError or a ValueError from `list.index`) instead
of returning a denial response; the original claim asserted this for every
such state, including ones that are denied before the tier code runs. -/
theorem download_raises_on_bad_plan (st : St) (uid : Nat) (product : Product)
    (today : Nat) (sub : UserSubscription)
    (h : findSubscription st uid = some sub) (ha : sub.active today = true)
    (hbad : sub.plan = none ∨ ∃ plan, sub.plan = some plan ∧
      (¬ plan.name ∈ plan_order ∨ ¬ product.subscription_plan.name ∈ plan_order)) :
    ∃ e : PyError, download_product_api st uid product today = (.error e, st) ∧
      ((∃ m, e = .attributeError m) ∨ (∃ m, e = .valueError m)) := by
  rcases hbad with hp | ⟨plan, hp, hnames⟩
  · exact ⟨_, dpa_no_plan h ha hp, .inl ⟨_, rfl⟩⟩
  · obtain ⟨m, hm⟩ := tierCheckDenies_error_of_not_mem plan.name
      product.subscription_plan.name hnames
    exact ⟨_, dpa_tier_error h ha hp hm, .inr ⟨m, rfl⟩⟩

/-- Claim C10, witness: user 3's subscription is active but its plan is
NULL, and the view raises an AttributeError. -/
theorem download_raises_on_bad_plan_witness :
    ∃ e : PyError, download_product_api stThree 3 prodFreeFile 100 = (.error e, stThree) ∧
      ((∃ m, e = .attributeError m) ∨ (∃ m, e = .valueError m)) :=
  download_raises_on_bad_plan stThree 3 prodFreeFile 100 subNoPlanActive rfl rfl (.inl rfl)

end StockPhoto
